import Mathlib

/-!
Shallow embedding of the gitpod `components/common-go/baseserver` package
(`server.go`): a multi-protocol server lifecycle manager that binds up to three
listeners (debug/observability, plain HTTP, gRPC), serves them concurrently,
and tears them down on signal or an explicit `Close` call.

Modelling conventions:
* Machine state that the Go code carries on `*Server` becomes the `Server`
  structure; the `listening` channel is modelled as `Option Bool`
  (`none` = nil channel / never started, `some false` = open channel / serving,
  `some true` = closed channel / graceful shutdown in progress).
* External collaborators (the network stack, `net/http.Server.Shutdown`,
  `grpc.Server.GracefulStop`, the prometheus registry) are modelled as
  environment records supplying their outcomes: bind errors, shutdown errors,
  drain durations, registration errors.
* The listener fields model whether the underlying socket is open.
  `net/http.Server.Shutdown` closes the open listeners first and only then
  waits for connections to drain, so the socket is closed even when `Shutdown`
  returns the context's error; the Go code skips only the *reference release*
  (`s.httpListener = nil`) on that path, the socket itself is closed.  The
  embedding therefore clears the listener field in the shutdown step
  regardless of the step's error.
* `sync.Once` linearizes concurrent `Close` callers: exactly one caller runs
  the body, every other caller blocks in `Do` until the winner finishes and
  then returns without running the body.  N concurrent calls are therefore
  embedded as a sequence of N calls against the once-guard (`closeN`).
-/

namespace Baseserver

/-- TLS material of one protocol entry of the configuration (`TLS` in Go). -/
structure TLSConfig where
  ca : String
  cert : String
  key : String
deriving DecidableEq, Repr

/-- One per-protocol configuration entry: an address and optional TLS material. -/
structure ServerConfiguration where
  address : String
  tls : Option TLSConfig := none
deriving DecidableEq, Repr

/-- The `Services` part of the configuration: an absent entry disables the protocol. -/
structure ServicesConfiguration where
  debug : Option ServerConfiguration
  http : Option ServerConfiguration
  grpc : Option ServerConfiguration
deriving DecidableEq, Repr

/-- The external health-check provider (`options.healthHandler`).  Its ready and
live endpoints produce responses fixed by the provider; the baseserver code
only routes to them (`initializeDebug`). -/
structure HealthHandler where
  readyResponse : String
  liveResponse : String
deriving DecidableEq, Repr

/-- Teardown events logged by `Server.close`: each event records that the
corresponding protocol server terminated its stop step successfully
("GRPC server terminated." / "HTTP server terminated." / "Debug server terminated."). -/
inductive CloseEvent where
  | grpcStopped
  | httpStopped
  | debugStopped
deriving DecidableEq, Repr

/-- The mutable state the Go code keeps on `*Server`.
`hasDebugSrv`/`hasHttpSrv`/`hasGrpcSrv` model the nil-checks `s.debug != nil`
etc. in `Server.close`; `New` always constructs all three server objects, so
for every server built by `New` they are `true`. -/
structure Server where
  name : String
  config : ServicesConfiguration
  closeTimeout : Nat
  healthHandler : HealthHandler
  hasDebugSrv : Bool
  hasHttpSrv : Bool
  hasGrpcSrv : Bool
  debugListener : Option String
  httpListener : Option String
  grpcListener : Option String
  listening : Option Bool
  onceDone : Bool
deriving DecidableEq, Repr

/-- Outcomes of the shutdown steps supplied by the environment: the error (if
any) returned by `s.http.Shutdown(ctx)` and by `s.debug.Shutdown(ctx)`.
`grpc.GracefulStop()` returns nothing. -/
structure ShutdownEnv where
  httpShutdownErr : Option String
  debugShutdownErr : Option String
deriving DecidableEq, Repr

/-- Result of a close operation: the returned error (as `Option String`), the
trace of successful teardown events, and the post state. -/
structure CloseOutcome where
  result : Option String
  trace : List CloseEvent
  server : Server
deriving DecidableEq, Repr

/-- `s.grpc.GracefulStop()` step of `Server.close`: stops the gRPC server and
closes its listener (GracefulStop closes the underlying `net.Listener`).  It
returns no error. -/
def grpcStopStep (s : Server) : List CloseEvent × Server :=
  if s.hasGrpcSrv then
    ([CloseEvent.grpcStopped], { s with grpcListener := none })
  else ([], s)

/-- `s.http.Shutdown(ctx)` step of `Server.close`.  `Shutdown` first closes the
open listener and then waits for connections to drain up to the context
deadline, so the listener socket is closed even on the error path; the error
(for example the context's deadline error) is wrapped and returned. -/
def httpStopStep (env : ShutdownEnv) (s : Server) : Option String × List CloseEvent × Server :=
  if s.hasHttpSrv then
    let s1 := { s with httpListener := none }
    match env.httpShutdownErr with
    | some e => (some ("failed to close http server: " ++ e), [], s1)
    | none => (none, [CloseEvent.httpStopped], s1)
  else (none, [], s)

/-- `s.debug.Shutdown(ctx)` step of `Server.close`, run last.  Same listener
semantics as the HTTP step. -/
def debugStopStep (env : ShutdownEnv) (s : Server) : Option String × List CloseEvent × Server :=
  if s.hasDebugSrv then
    let s1 := { s with debugListener := none }
    match env.debugShutdownErr with
    | some e => (some ("failed to close debug server: " ++ e), [], s1)
    | none => (none, [CloseEvent.debugStopped], s1)
  else (none, [], s)

/-- `Server.isClosing`: the `listening` channel is closed, meaning graceful
shutdown has begun. -/
def Server.isClosing (s : Server) : Bool :=
  match s.listening with
  | some true => true
  | _ => false

/-- `Server.close(ctx)`: guard checks, then `close(s.listening)` followed by the
gRPC, HTTP and debug stop steps in that order.  An error in the HTTP step (or
the debug step) is returned immediately, aborting the remaining steps. -/
def Server.close (env : ShutdownEnv) (s : Server) : CloseOutcome :=
  match s.listening with
  | none => ⟨some "server is not running, invalid close operation", [], s⟩
  | some true => ⟨none, [], s⟩
  | some false =>
    let s0 := { s with listening := some true }
    let g := grpcStopStep s0
    match httpStopStep env g.2 with
    | (some e, _, s2) => ⟨some e, g.1, s2⟩
    | (none, t2, s2) =>
      match debugStopStep env s2 with
      | (some e, _, s3) => ⟨some e, g.1 ++ t2, s3⟩
      | (none, t3, s3) => ⟨none, g.1 ++ t2 ++ t3, s3⟩

/-- `Server.Close()`: derives a context bounded by the configured close timeout
and runs `s.close` through `s.closeOnce.Do`.  The winning caller's local `err`
is set by the body; any caller that finds the once-guard already consumed
returns with `err` still nil. -/
def Server.Close (env : ShutdownEnv) (s : Server) : CloseOutcome :=
  if s.onceDone then ⟨none, [], s⟩
  else
    let r := s.close env
    ⟨r.result, r.trace, { r.server with onceDone := true }⟩

/-- Results of a sequence of `Close` calls (the linearization `sync.Once`
imposes on concurrent callers): the per-caller returned errors, the combined
teardown trace, and the final state. -/
structure CloseNOutcome where
  results : List (Option String)
  trace : List CloseEvent
  server : Server
deriving DecidableEq, Repr

/-- N successive `Close` calls against the same server. -/
def Server.closeN (env : ShutdownEnv) (s : Server) : Nat → CloseNOutcome
  | 0 => ⟨[], [], s⟩
  | n + 1 =>
    let r := s.Close env
    let rest := r.server.closeN env n
    ⟨r.result :: rest.results, r.trace ++ rest.trace, rest.server⟩

/-- Outcomes of the `net.Listen("tcp", addr)` calls supplied by the
environment, one per protocol, in the binding order debug, HTTP, gRPC. -/
structure BindEnv where
  debugBindErr : Option String
  httpBindErr : Option String
  grpcBindErr : Option String
deriving DecidableEq, Repr

/-- One conditional bind of `ListenAndServe`: nothing happens for a disabled
protocol; otherwise `net.Listen` either fails with an error or yields a
listener bound at the configured address. -/
def bindOne (cfg : Option ServerConfiguration) (berr : Option String) :
    Option String × Option String :=
  match cfg with
  | none => (none, none)
  | some c =>
    match berr with
    | some e => (some e, none)
    | none => (none, some c.address)

/-- The startup part of `Server.ListenAndServe`: create the `listening`
channel, then bind the configured listeners in the order debug, HTTP, gRPC,
returning a wrapped bind error as soon as one bind fails. -/
def Server.bindPhase (env : BindEnv) (s0 : Server) : Option String × Server :=
  let s1 := { s0 with listening := some false }
  match bindOne s1.config.debug env.debugBindErr with
  | (some e, _) => (some ("failed to start debug server: " ++ e), s1)
  | (none, dl) =>
    let s2 := match dl with
      | some a => { s1 with debugListener := some a }
      | none => s1
    match bindOne s2.config.http env.httpBindErr with
    | (some e, _) => (some ("failed to start HTTP server: " ++ e), s2)
    | (none, hl) =>
      let s3 := match hl with
        | some a => { s2 with httpListener := some a }
        | none => s2
      match bindOne s3.config.grpc env.grpcBindErr with
      | (some e, _) => (some ("failed to start gRPC server: " ++ e), s3)
      | (none, gl) =>
        let s4 := match gl with
          | some a => { s3 with grpcListener := some a }
          | none => s3
        (none, s4)

/-- Outcome of a full `ListenAndServe` run: its return value, the teardown
trace of the deferred `Close`, and the final server state. -/
structure RunOutcome where
  result : Option String
  trace : List CloseEvent
  server : Server
deriving DecidableEq, Repr

/-- `Server.ListenAndServe`: run the bind phase; on a bind failure the deferred
`s.Close()` runs (its own error is only logged) and the bind error is
returned.  When every bind succeeds the accept loops run and the select blocks
until an OS termination signal arrives, upon which the function returns nil,
the deferred `s.Close()` again running before control reaches the caller. -/
def Server.listenAndServe (benv : BindEnv) (cenv : ShutdownEnv) (s0 : Server) : RunOutcome :=
  match s0.bindPhase benv with
  | (some e, s) =>
    let c := s.Close cenv
    ⟨some e, c.trace, c.server⟩
  | (none, s) =>
    let c := s.Close cenv
    ⟨none, c.trace, c.server⟩

/-- Drain durations of the three protocol servers supplied by the environment:
how long each server's in-flight work needs to complete. -/
structure DrainEnv where
  grpcDrain : Nat
  httpDrain : Nat
  debugDrain : Nat
deriving DecidableEq, Repr

/-- Elapsed time of `Server.close` for the timing model.  The context deadline
is `closeTimeout` from the start of `Close`.  `grpc.GracefulStop()` takes no
context: it waits for the full gRPC drain however long that is.  The HTTP and
debug `Shutdown(ctx)` steps are bounded by the shared deadline: a drain that
would cross the deadline is abandoned there (immediately, when the deadline has
already passed) and reports the context error; a timed-out HTTP step makes
`close` return early, skipping the debug step. -/
def Server.closeElapsed (env : DrainEnv) (s : Server) : Nat :=
  match s.listening with
  | none => 0
  | some true => 0
  | some false =>
    let t1 := if s.hasGrpcSrv then env.grpcDrain else 0
    if s.hasHttpSrv then
      if s.closeTimeout < t1 + env.httpDrain then
        max t1 s.closeTimeout
      else
        let t2 := t1 + env.httpDrain
        if s.hasDebugSrv then
          if s.closeTimeout < t2 + env.debugDrain then max t2 s.closeTimeout
          else t2 + env.debugDrain
        else t2
    else
      if s.hasDebugSrv then
        if s.closeTimeout < t1 + env.debugDrain then max t1 s.closeTimeout
        else t1 + env.debugDrain
      else t1

/-- The `httpAddress` helper: empty string for a nil listener, otherwise the
scheme (https when TLS material is configured) and the listener's address. -/
def httpAddress (cfg : Option ServerConfiguration) (l : Option String) : String :=
  match l with
  | none => ""
  | some addr =>
    let protocol := match cfg with
      | some c => if c.tls.isSome then "https" else "http"
      | none => "http"
    protocol ++ "://" ++ addr

/-- `Server.DebugAddress`. -/
def Server.DebugAddress (s : Server) : String :=
  httpAddress s.config.debug s.debugListener

/-- `Server.HTTPAddress`. -/
def Server.HTTPAddress (s : Server) : String :=
  httpAddress s.config.http s.httpListener

/-- Modelled from the spec: `ServerConfiguration.GetAddress`, a nil-tolerant
getter defined in repository code outside the given sources (only its caller
`Server.GRPCAddress` is given).  Per the spec's runtime-query contract —
"resolved network address per enabled protocol (empty string if that protocol
was not configured)" — it returns the configured address and the empty string
for an absent entry. -/
def getAddress : Option ServerConfiguration → String
  | none => ""
  | some c => c.address

/-- `Server.GRPCAddress`: delegates to the configuration getter. -/
def Server.GRPCAddress (s : Server) : String :=
  getAddress s.config.grpc

/-- The debug mux built by `initializeDebug`: `/ready` and `/live` route to the
configured health handler's endpoints, `/metrics` to the prometheus handler of
the metrics registry, `/debug/pprof` to the profiler.  The handlers are bound
once at construction; none of them consults the server's lifecycle state. -/
def Server.debugMuxResponse (s : Server) (path : String) : Option String :=
  if path = "/ready" then some s.healthHandler.readyResponse
  else if path = "/live" then some s.healthHandler.liveResponse
  else if path = "/metrics" then some "prometheus metrics exposition"
  else if path = "/debug/pprof" then some "pprof profile"
  else none

/-- Outcomes of the fallible calls made during `New` that are supplied by the
environment: the option-evaluation result (`evaluateOptions`, defined in
repository code outside the given sources) and the metrics registry's answer
to registering the gRPC server metrics (`prometheus.Registry.Register`). -/
structure NewEnv where
  optionsErr : Option String
  registerErr : Option String
deriving DecidableEq, Repr

/-- The server value `New` constructs on success: all three protocol server
objects exist, no listener is open, the `listening` channel is nil and the
once-guard is unconsumed. -/
def newServer (name : String) (config : ServicesConfiguration) (closeTimeout : Nat)
    (h : HealthHandler) : Server :=
  { name := name
    config := config
    closeTimeout := closeTimeout
    healthHandler := h
    hasDebugSrv := true
    hasHttpSrv := true
    hasGrpcSrv := true
    debugListener := none
    httpListener := none
    grpcListener := none
    listening := none
    onceDone := false }

/-- `initializeGRPC`'s fallible part: registering the gRPC server metrics with
the metrics registry; a registry rejection is wrapped and returned. -/
def initializeGRPCErr (env : NewEnv) : Option String :=
  match env.registerErr with
  | some e => some ("failed to register grpc metrics: " ++ e)
  | none => none

/-- `New`: evaluate options, initialize the debug server (`initializeDebug`
always returns nil), the HTTP mux, then `initializeGRPC`; the first failure is
wrapped and returned with no server value.  `New` opens no listener — sockets
are only opened later by `ListenAndServe`'s bind phase. -/
def New (env : NewEnv) (name : String) (config : ServicesConfiguration)
    (closeTimeout : Nat) (h : HealthHandler) : Except String Server :=
  match env.optionsErr with
  | some e => Except.error ("invalid config: " ++ e)
  | none =>
    match initializeGRPCErr env with
    | some e => Except.error ("failed to initialize gRPC server: " ++ e)
    | none => Except.ok (newServer name config closeTimeout h)

/-! Concrete fixtures used by witnesses and counterexamples. -/

/-- A configuration enabling all three protocols, no TLS. -/
def cfgAll : ServicesConfiguration :=
  ⟨some ⟨":9500", none⟩, some ⟨":8080", none⟩, some ⟨":9501", none⟩⟩

/-- A health handler whose ready endpoint reports ready (the default
`healthcheck.NewHandler()` has no checks and always answers OK). -/
def hdlOk : HealthHandler := ⟨"ready", "live"⟩

/-- A freshly constructed server. -/
def srvNew : Server := newServer "test" cfgAll 5 hdlOk

/-- The fresh server after a fully successful bind phase: serving. -/
def srvStarted : Server :=
  { srvNew with
    listening := some false
    debugListener := some ":9500"
    httpListener := some ":8080"
    grpcListener := some ":9501" }

/-- Shutdown environment where every stop step succeeds. -/
def cenvOk : ShutdownEnv := ⟨none, none⟩

/-- Bind environment where every bind succeeds. -/
def benvOk : BindEnv := ⟨none, none, none⟩

/-! Theorems settling the claims. -/

/-- C9: Calling `Close` on a server on which `ListenAndServe` has never been
started returns the "server is not running" error, performs no teardown step on
any protocol server (empty trace), and modifies no server state other than
consuming the once-guard. -/
theorem close_not_running (env : ShutdownEnv) (s : Server)
    (h1 : s.listening = none) (h2 : s.onceDone = false) :
    s.Close env =
      ⟨some "server is not running, invalid close operation", [], { s with onceDone := true }⟩ := by
  simp [Server.Close, Server.close, h1, h2]

/-- Witness for C9: a freshly constructed server. -/
theorem close_not_running_witness :
    srvNew.Close cenvOk =
      ⟨some "server is not running, invalid close operation", [], { srvNew with onceDone := true }⟩ :=
  close_not_running cenvOk srvNew rfl rfl

/-- C10: If the metrics registry rejects the registration of the gRPC server
metrics during construction, `New` returns a wrapped error and no server value;
`New` opens no listener, so construction fails before any listener is opened. -/
theorem new_register_failure (env : NewEnv) (name : String) (cfg : ServicesConfiguration)
    (t : Nat) (h : HealthHandler) (e : String)
    (h1 : env.optionsErr = none) (h2 : env.registerErr = some e) :
    New env name cfg t h =
      Except.error ("failed to initialize gRPC server: " ++ ("failed to register grpc metrics: " ++ e)) := by
  simp [New, initializeGRPCErr, h1, h2]

/-- Witness for C10: a registry that rejects the collector as a duplicate. -/
theorem new_register_failure_witness :
    New ⟨none, some "duplicate metrics collector registration attempted"⟩ "test" cfgAll 5 hdlOk =
      Except.error ("failed to initialize gRPC server: " ++ ("failed to register grpc metrics: "
        ++ "duplicate metrics collector registration attempted")) :=
  new_register_failure ⟨none, some "duplicate metrics collector registration attempted"⟩
    "test" cfgAll 5 hdlOk "duplicate metrics collector registration attempted" rfl rfl

/-- C8: When every bind succeeds, a termination signal makes `ListenAndServe`
return nil, and its effect is exactly that of an explicit `Close` call on the
serving state: both paths run the same once-guarded shutdown sequencer, so the
teardown trace and the final state coincide with those of `Close`. -/
theorem signal_close_identical (benv : BindEnv) (cenv : ShutdownEnv) (s0 s1 : Server)
    (h : s0.bindPhase benv = (none, s1)) :
    s0.listenAndServe benv cenv = ⟨none, (s1.Close cenv).trace, (s1.Close cenv).server⟩ := by
  simp [Server.listenAndServe, h]

/-- Witness for C8: the all-protocols fixture; the bind phase produces the
serving state and the signal path agrees with the explicit `Close` outcome. -/
theorem signal_close_identical_witness :
    srvNew.listenAndServe benvOk cenvOk =
      ⟨none, (srvStarted.Close cenvOk).trace, (srvStarted.Close cenvOk).server⟩ :=
  signal_close_identical benvOk cenvOk srvNew srvStarted (by decide)

/-- C7: With every bind succeeding, the bind phase of `ListenAndServe` opens a
listener for exactly the configured protocols, and each protocol not configured
reports an empty resolved address. -/
theorem listeners_match_config (name : String) (cfg : ServicesConfiguration) (t : Nat)
    (h : HealthHandler) (benv : BindEnv)
    (hd : benv.debugBindErr = none) (hh : benv.httpBindErr = none) (hg : benv.grpcBindErr = none) :
    ((newServer name cfg t h).bindPhase benv).1 = none ∧
    (((newServer name cfg t h).bindPhase benv).2.debugListener.isSome ↔ cfg.debug.isSome) ∧
    (((newServer name cfg t h).bindPhase benv).2.httpListener.isSome ↔ cfg.http.isSome) ∧
    (((newServer name cfg t h).bindPhase benv).2.grpcListener.isSome ↔ cfg.grpc.isSome) ∧
    (cfg.debug = none → ((newServer name cfg t h).bindPhase benv).2.DebugAddress = "") ∧
    (cfg.http = none → ((newServer name cfg t h).bindPhase benv).2.HTTPAddress = "") ∧
    (cfg.grpc = none → ((newServer name cfg t h).bindPhase benv).2.GRPCAddress = "") := by
  rcases cfg with ⟨d, hp, g⟩
  rcases d with _ | d <;> rcases hp with _ | hp <;> rcases g with _ | g <;>
    simp [Server.bindPhase, bindOne, newServer, hd, hh, hg,
      Server.DebugAddress, Server.HTTPAddress, Server.GRPCAddress, httpAddress, getAddress]

/-- Witness for C7: the spec's scenario, debug and gRPC configured, HTTP
absent — the HTTP listener stays closed and the HTTP address is empty. -/
theorem listeners_match_config_witness :
    ((newServer "test" ⟨some ⟨":9500", none⟩, none, some ⟨":9501", none⟩⟩ 5 hdlOk).bindPhase
        benvOk).1 = none ∧
    (((newServer "test" ⟨some ⟨":9500", none⟩, none, some ⟨":9501", none⟩⟩ 5 hdlOk).bindPhase
        benvOk).2.debugListener.isSome ↔
      (⟨some ⟨":9500", none⟩, none, some ⟨":9501", none⟩⟩ : ServicesConfiguration).debug.isSome) ∧
    (((newServer "test" ⟨some ⟨":9500", none⟩, none, some ⟨":9501", none⟩⟩ 5 hdlOk).bindPhase
        benvOk).2.httpListener.isSome ↔
      (⟨some ⟨":9500", none⟩, none, some ⟨":9501", none⟩⟩ : ServicesConfiguration).http.isSome) ∧
    (((newServer "test" ⟨some ⟨":9500", none⟩, none, some ⟨":9501", none⟩⟩ 5 hdlOk).bindPhase
        benvOk).2.grpcListener.isSome ↔
      (⟨some ⟨":9500", none⟩, none, some ⟨":9501", none⟩⟩ : ServicesConfiguration).grpc.isSome) ∧
    ((⟨some ⟨":9500", none⟩, none, some ⟨":9501", none⟩⟩ : ServicesConfiguration).debug = none →
      ((newServer "test" ⟨some ⟨":9500", none⟩, none, some ⟨":9501", none⟩⟩ 5 hdlOk).bindPhase
        benvOk).2.DebugAddress = "") ∧
    ((⟨some ⟨":9500", none⟩, none, some ⟨":9501", none⟩⟩ : ServicesConfiguration).http = none →
      ((newServer "test" ⟨some ⟨":9500", none⟩, none, some ⟨":9501", none⟩⟩ 5 hdlOk).bindPhase
        benvOk).2.HTTPAddress = "") ∧
    ((⟨some ⟨":9500", none⟩, none, some ⟨":9501", none⟩⟩ : ServicesConfiguration).grpc = none →
      ((newServer "test" ⟨some ⟨":9500", none⟩, none, some ⟨":9501", none⟩⟩ 5 hdlOk).bindPhase
        benvOk).2.GRPCAddress = "") :=
  listeners_match_config "test" ⟨some ⟨":9500", none⟩, none, some ⟨":9501", none⟩⟩ 5 hdlOk
    benvOk rfl rfl rfl

/-- C6 counterexample: a server in the Closing state (the `listening` channel
closed) still answers the readiness endpoint with the health provider's own
response — here "ready", not "not ready".  The claim that readiness returns
"not ready" once the manager has entered Closing is false at this input. -/
theorem readiness_ignores_closing_cex :
    ({ srvStarted with listening := some true } : Server).isClosing = true ∧
    ({ srvStarted with listening := some true } : Server).debugMuxResponse "/ready" =
      some "ready" ∧
    "ready" ≠ "not ready" := by
  exact ⟨rfl, rfl, by decide⟩

/-- C6 amended: the debug server's response on every path, the readiness probe
included, is determined by the configured health handler alone; it is
independent of the server's lifecycle state, so entering Closing does not
change it. -/
theorem debug_response_state_independent (s1 s2 : Server) (path : String)
    (h : s1.healthHandler = s2.healthHandler) :
    s1.debugMuxResponse path = s2.debugMuxResponse path := by
  simp [Server.debugMuxResponse, h]

/-- Witness for C6's amended theorem: the serving fixture and its Closing
variant answer the readiness probe identically. -/
theorem debug_response_state_independent_witness :
    ({ srvStarted with listening := some true } : Server).debugMuxResponse "/ready" =
      srvStarted.debugMuxResponse "/ready" :=
  debug_response_state_independent { srvStarted with listening := some true } srvStarted
    "/ready" rfl

/-- Helper: once the once-guard is consumed, every further `Close` call returns
nil without running any teardown. -/
theorem closeN_of_consumed (env : ShutdownEnv) (s : Server) (h : s.onceDone = true) :
    ∀ n, s.closeN env n = ⟨List.replicate n none, [], s⟩ := by
  intro n
  induction n with
  | zero => rfl
  | succ n ih => simp [Server.closeN, Server.Close, h, ih, List.replicate_succ]

/-- C1 counterexample: two `Close` calls (the linearization of two concurrent
callers) against a serving server whose HTTP shutdown fails: the winner
receives the HTTP shutdown error, the second caller receives nil — the callers
do not receive the same aggregated result. -/
theorem close_results_diverge_cex :
    (srvStarted.closeN ⟨some "boom", none⟩ 2).results =
      [some ("failed to close http server: " ++ "boom"), none] ∧
    some ("failed to close http server: " ++ "boom") ≠ (none : Option String) := by
  exact ⟨rfl, by decide⟩

/-- C1 amended: for a server that has started serving, invoking `Close` N ≥ 1
times (concurrent callers linearize through the once-guard) runs the teardown
body exactly once — the total trace is that of the single body run and the
final state is the body's post state with the guard consumed; the winning
caller receives the aggregated result and every other caller receives nil, so
all callers receive the same value whenever the teardown succeeds. -/
theorem closeN_exactly_once (env : ShutdownEnv) (s : Server) (n : Nat)
    (_hstart : s.listening = some false) (honce : s.onceDone = false) :
    (s.closeN env (n + 1)).results = (s.close env).result :: List.replicate n none ∧
    (s.closeN env (n + 1)).trace = (s.close env).trace ∧
    (s.closeN env (n + 1)).server = { (s.close env).server with onceDone := true } ∧
    ((s.close env).result = none → ∀ r ∈ (s.closeN env (n + 1)).results, r = none) := by
  have hClose : s.Close env =
      ⟨(s.close env).result, (s.close env).trace, { (s.close env).server with onceDone := true }⟩ := by
    simp [Server.Close, honce]
  have hrest := closeN_of_consumed env { (s.close env).server with onceDone := true } rfl n
  refine ⟨?_, ?_, ?_, ?_⟩
  · simp [Server.closeN, hClose, hrest]
  · simp [Server.closeN, hClose, hrest]
  · simp [Server.closeN, hClose, hrest]
  · intro hnone r hr
    simp [Server.closeN, hClose, hrest, hnone] at hr
    rcases hr with rfl | ⟨_, rfl⟩ <;> rfl

/-- Witness for C1's amended theorem: three `Close` calls against the serving
fixture with error-free shutdown steps. -/
theorem closeN_exactly_once_witness :
    (srvStarted.closeN cenvOk 3).results =
      (srvStarted.close cenvOk).result :: List.replicate 2 none ∧
    (srvStarted.closeN cenvOk 3).trace = (srvStarted.close cenvOk).trace ∧
    (srvStarted.closeN cenvOk 3).server =
      { (srvStarted.close cenvOk).server with onceDone := true } ∧
    ((srvStarted.close cenvOk).result = none →
      ∀ r ∈ (srvStarted.closeN cenvOk 3).results, r = none) :=
  closeN_exactly_once cenvOk srvStarted 2 rfl rfl

/-- C2 counterexample: in an execution whose HTTP stop step fails (for example
with the context's deadline error), the shutdown sequence stops only the gRPC
server; the debug server — though enabled — is never stopped, so the claim that
every execution stops all three servers is false at this input. -/
theorem close_order_incomplete_cex :
    srvStarted.hasDebugSrv = true ∧
    (srvStarted.close ⟨some "context deadline exceeded", none⟩).trace =
      [CloseEvent.grpcStopped] ∧
    CloseEvent.debugStopped ∉ (srvStarted.close ⟨some "context deadline exceeded", none⟩).trace := by
  exact ⟨rfl, rfl, by decide⟩

/-- C2 amended: the shutdown sequence respects the fixed order in every
execution — its event trace is an ordered sublist of gRPC first, HTTP second,
debug strictly last — and all three enabled servers are stopped in that order
whenever the HTTP and debug stop steps return no error; a failing HTTP stop
step ends the sequence before the debug server is stopped. -/
theorem close_order (env : ShutdownEnv) (s : Server) (h : s.listening = some false) :
    List.Sublist (s.close env).trace
      [CloseEvent.grpcStopped, CloseEvent.httpStopped, CloseEvent.debugStopped] ∧
    (s.hasGrpcSrv = true → s.hasHttpSrv = true → s.hasDebugSrv = true →
      env.httpShutdownErr = none → env.debugShutdownErr = none →
      (s.close env).trace =
        [CloseEvent.grpcStopped, CloseEvent.httpStopped, CloseEvent.debugStopped]) := by
  cases hG : s.hasGrpcSrv <;> cases hH : s.hasHttpSrv <;> cases hD : s.hasDebugSrv <;>
    rcases hE : env.httpShutdownErr with _ | e0 <;>
      rcases hF : env.debugShutdownErr with _ | f0 <;>
        refine ⟨?_, ?_⟩ <;>
          simp [Server.close, h, grpcStopStep, httpStopStep, debugStopStep, hG, hH, hD, hE, hF]

/-- Witness for C2's amended theorem: the serving fixture with error-free
shutdown steps. -/
theorem close_order_witness :
    List.Sublist (srvStarted.close cenvOk).trace
      [CloseEvent.grpcStopped, CloseEvent.httpStopped, CloseEvent.debugStopped] ∧
    (srvStarted.hasGrpcSrv = true → srvStarted.hasHttpSrv = true →
      srvStarted.hasDebugSrv = true →
      cenvOk.httpShutdownErr = none → cenvOk.debugShutdownErr = none →
      (srvStarted.close cenvOk).trace =
        [CloseEvent.grpcStopped, CloseEvent.httpStopped, CloseEvent.debugStopped]) :=
  close_order cenvOk srvStarted rfl

/-- C4 counterexample: with the HTTP stop step failing and the debug stop step
error-free, `close` returns only the HTTP error, the debug server is never
stopped, and the debug listener stays open — the errors are not collected
together and the HTTP failure does prevent the remaining teardown. -/
theorem close_no_aggregate_cex :
    (srvStarted.close ⟨some "boom", none⟩).result =
      some ("failed to close http server: " ++ "boom") ∧
    CloseEvent.debugStopped ∉ (srvStarted.close ⟨some "boom", none⟩).trace ∧
    (srvStarted.close ⟨some "boom", none⟩).server.debugListener = some ":9500" := by
  exact ⟨rfl, by decide, rfl⟩

/-- C4 amended: during the shutdown sequence the first failing stop step's
error is returned alone and ends the sequence: an HTTP stop error prevents the
debug teardown from running (the debug listener is left untouched), and a
debug stop error is surfaced only when the HTTP step succeeded. -/
theorem close_first_error_returns (env : ShutdownEnv) (s : Server)
    (h : s.listening = some false) (hH : s.hasHttpSrv = true) (hD : s.hasDebugSrv = true) :
    (∀ e, env.httpShutdownErr = some e →
      (s.close env).result = some ("failed to close http server: " ++ e) ∧
      CloseEvent.debugStopped ∉ (s.close env).trace ∧
      (s.close env).server.debugListener = s.debugListener) ∧
    (env.httpShutdownErr = none → ∀ e, env.debugShutdownErr = some e →
      (s.close env).result = some ("failed to close debug server: " ++ e)) := by
  cases hG : s.hasGrpcSrv <;>
    rcases hE : env.httpShutdownErr with _ | e0 <;>
      rcases hF : env.debugShutdownErr with _ | f0 <;>
        simp [Server.close, h, grpcStopStep, httpStopStep, debugStopStep, hG, hH, hD, hE, hF]

/-- Witness for C4's amended theorem: the serving fixture under an HTTP stop
failure. -/
theorem close_first_error_returns_witness :
    (∀ e, (⟨some "boom", none⟩ : ShutdownEnv).httpShutdownErr = some e →
      (srvStarted.close ⟨some "boom", none⟩).result =
        some ("failed to close http server: " ++ e) ∧
      CloseEvent.debugStopped ∉ (srvStarted.close ⟨some "boom", none⟩).trace ∧
      (srvStarted.close ⟨some "boom", none⟩).server.debugListener =
        srvStarted.debugListener) ∧
    ((⟨some "boom", none⟩ : ShutdownEnv).httpShutdownErr = none →
      ∀ e, (⟨some "boom", none⟩ : ShutdownEnv).debugShutdownErr = some e →
      (srvStarted.close ⟨some "boom", none⟩).result =
        some ("failed to close debug server: " ++ e)) :=
  close_first_error_returns ⟨some "boom", none⟩ srvStarted rfl rfl rfl

/-- C3 counterexample: debug and HTTP bind, the gRPC bind fails, and during the
deferred cleanup the HTTP shutdown returns the context's deadline error.
`ListenAndServe` returns the bind error, but the cleanup aborts before the
debug step, so the debug listener from the failed attempt remains open. -/
theorem bind_cleanup_leak_cex :
    (srvNew.listenAndServe ⟨none, none, some "address already in use"⟩
        ⟨some "context deadline exceeded", none⟩).result =
      some ("failed to start gRPC server: " ++ "address already in use") ∧
    (srvNew.listenAndServe ⟨none, none, some "address already in use"⟩
        ⟨some "context deadline exceeded", none⟩).server.debugListener = some ":9500" := by
  exact ⟨rfl, rfl⟩

/-- C3 amended: if a bind fails during startup, `ListenAndServe` returns that
bind error and the deferred close runs before it returns: the gRPC and HTTP
listeners of the attempt are closed unconditionally, and the debug listener is
closed provided the cleanup's HTTP shutdown step returns no error; if that
step fails (deadline overrun while draining), the debug listener remains
open. -/
theorem bind_failure_cleanup (name : String) (cfg : ServicesConfiguration) (t : Nat)
    (h : HealthHandler) (benv : BindEnv) (cenv : ShutdownEnv) (e : String)
    (hfail : ((newServer name cfg t h).bindPhase benv).1 = some e) :
    ((newServer name cfg t h).listenAndServe benv cenv).result = some e ∧
    ((newServer name cfg t h).listenAndServe benv cenv).server.grpcListener = none ∧
    ((newServer name cfg t h).listenAndServe benv cenv).server.httpListener = none ∧
    (cenv.httpShutdownErr = none →
      ((newServer name cfg t h).listenAndServe benv cenv).server.debugListener = none) := by
  rcases cfg with ⟨d, hp, g⟩
  rcases d with _ | d <;> rcases hp with _ | hp <;> rcases g with _ | g <;>
    rcases hbd : benv.debugBindErr with _ | de <;>
      rcases hbh : benv.httpBindErr with _ | he <;>
        rcases hbg : benv.grpcBindErr with _ | ge <;>
          rcases hce : cenv.httpShutdownErr with _ | ce <;>
            rcases hcf : cenv.debugShutdownErr with _ | cf <;>
              simp_all [Server.bindPhase, bindOne, newServer, Server.listenAndServe,
                Server.Close, Server.close, grpcStopStep, httpStopStep, debugStopStep]

/-- Witness for C3's amended theorem: all protocols configured, the HTTP bind
fails, the cleanup's shutdown steps succeed — the bind error is returned and
no listener of the attempt remains open. -/
theorem bind_failure_cleanup_witness :
    ((newServer "test" cfgAll 5 hdlOk).listenAndServe ⟨none, some "addr in use", none⟩
        cenvOk).result = some ("failed to start HTTP server: " ++ "addr in use") ∧
    ((newServer "test" cfgAll 5 hdlOk).listenAndServe ⟨none, some "addr in use", none⟩
        cenvOk).server.grpcListener = none ∧
    ((newServer "test" cfgAll 5 hdlOk).listenAndServe ⟨none, some "addr in use", none⟩
        cenvOk).server.httpListener = none ∧
    (cenvOk.httpShutdownErr = none →
      ((newServer "test" cfgAll 5 hdlOk).listenAndServe ⟨none, some "addr in use", none⟩
        cenvOk).server.debugListener = none) :=
  bind_failure_cleanup "test" cfgAll 5 hdlOk ⟨none, some "addr in use", none⟩ cenvOk
    ("failed to start HTTP server: " ++ "addr in use") rfl

/-- C5 counterexample: a serving server with `closeTimeout = 5` whose gRPC
drain needs 1000 time units while the HTTP and debug drains are instantaneous:
`close` takes 1000 — more than one hundred times the configured timeout — so the
claim that every step is deadline-bounded and `Close` returns within the
timeout plus a small bounded overhead is false at this input. -/
theorem close_elapsed_unbounded_cex :
    srvStarted.closeTimeout = 5 ∧
    srvStarted.closeElapsed ⟨1000, 0, 0⟩ = 1000 ∧
    100 * srvStarted.closeTimeout < srvStarted.closeElapsed ⟨1000, 0, 0⟩ := by
  exact ⟨rfl, rfl, by decide⟩

/-- C5 amended: the HTTP and debug shutdown steps are bounded by the single
shared deadline derived from the configured close timeout, but the gRPC
graceful stop is not deadline-bounded: `close` is only guaranteed to return
within the maximum of the gRPC drain time and the configured timeout (so
within the timeout whenever no gRPC server object exists). -/
theorem close_elapsed_bound (env : DrainEnv) (s : Server) :
    s.closeElapsed env ≤ max (if s.hasGrpcSrv then env.grpcDrain else 0) s.closeTimeout := by
  rcases hl : s.listening with _ | b
  · simp [Server.closeElapsed, hl]
  · cases b
    · cases hG : s.hasGrpcSrv <;> cases hH : s.hasHttpSrv <;> cases hD : s.hasDebugSrv <;>
        simp [Server.closeElapsed, hl, hG, hH, hD] <;> split_ifs <;> omega
    · simp [Server.closeElapsed, hl]

end Baseserver
